import Mathlib

/-
Verification of the order-processing pipeline of the dk-go-gophermart
loyalty service.

The development shallowly embeds the parts of the Go source that the
claims concern:

* the broker worker loop (internal/service/broker/v1/broker,
  function processAsync): one iteration of the per-item handling is
  modelled as a pure function from the popped queue entry and the
  accrual-client response to the multiset of items pushed to the
  pending and completed queues;
* the PostgreSQL ledger store (internal/storage/v1/inpsql/inpsql.go):
  the SQL statements of updateOrder, AddNewWithdrawal, AddNewOrder,
  getStalledOrders and the recovery goroutine of InitStorage are
  modelled as pure transformers of an abstract relational state.

Conventions: Go time.Time instants and time.Duration values are both
modelled as integer nanosecond counts (the zero value of time.Time is
the instant 0); NUMERIC(10,2) amounts and the float64 accruals fed
into them are fixed-point decimals with two fractional digits and are
modelled as integer counts of hundredths (500.50 points is the
integer 50050); Go strings stay strings.
-/

/-- One nanosecond-count second, the unit of Go time.Duration values
(time.Second = 1000000000 ns). -/
def sec : Int := 1000000000

/-- Queue record, models modelqueue.OrderQueueEntry
(internal/models/modelqueue): UserID, OrderNumber, OrderStatus,
RetryCount, Accrual, LastChecked, RetryAfter. -/
structure OrderQueueEntry where
  userID : String
  orderNumber : Int
  orderStatus : String
  retryCount : Int
  accrual : Int
  lastChecked : Int
  retryAfter : Int
  deriving DecidableEq

/-- Parsed accrual-service body, models modeldto.AccrualResponse
(order, status, accrual; an absent accrual field unmarshals to the Go
zero value 0). -/
structure AccrualResponse where
  orderNumber : String
  orderStatus : String
  accrual : Int
  deriving DecidableEq

/-- Result of one accrual-client call as the worker observes it
(broker.processAsync line with GetAccrual): either a transport error
(err not nil) or a response with an HTTP status code, an optional
parsed Retry-After header value (none models an absent or unparseable
header) and an optional parsed body (none models a body on which
json.Unmarshal fails). -/
inductive ClientResult where
  | transport : ClientResult
  | ok (statusCode : Int) (retryAfterHeader : Option Int) (body : Option AccrualResponse) : ClientResult
  deriving DecidableEq

/-- Items pushed by one worker iteration: pending models sends on
queueIn, completed models sends on queueOut. -/
structure StepEffect where
  pending : List OrderQueueEntry
  completed : List OrderQueueEntry
  deriving DecidableEq

/-- The status translation map of processAsync: a Go map lookup whose
missing-key result is the zero value, the empty string. -/
def statusMap (s : String) : String :=
  if s = "INVALID" then "INVALID"
  else if s = "PROCESSED" then "PROCESSED"
  else if s = "PROCESSING" then "PROCESSING"
  else if s = "REGISTERED" then "NEW"
  else ""

/-- Result of the discarded-error strconv.Atoi call on the Retry-After
header: Go returns the zero value 0 when parsing fails and the error
is ignored. -/
def goAtoi : Option Int → Int
  | none => 0
  | some k => k

/-- The give-up record the worker emits to queueOut after the retry
budget is exhausted: a struct literal naming only UserID, OrderNumber,
OrderStatus and Accrual, every other field being the Go zero value. -/
def giveUpRecord (r : OrderQueueEntry) : OrderQueueEntry :=
  { userID := r.userID
    orderNumber := r.orderNumber
    orderStatus := r.orderStatus
    retryCount := 0
    accrual := r.accrual
    lastChecked := 0
    retryAfter := 0 }

/-- Failure handling of processAsync for a transport error or a status
code outside 200 and 429: when RetryCount has reached retryNumber the
give-up record goes to queueOut, otherwise the record goes back to
queueIn with RetryCount incremented and LastChecked set to now (note
that RetryAfter is left untouched on this path). -/
def failureEffect (retryNumber now : Int) (r : OrderQueueEntry) : StepEffect :=
  if retryNumber ≤ r.retryCount then
    { pending := [], completed := [giveUpRecord r] }
  else
    { pending := [{ r with retryCount := r.retryCount + 1, lastChecked := now }]
      completed := [] }

/-- Handling of a parsed 200 body in processAsync: the mapped status
is compared with the record's cached status; on no change the record
is re-pushed with LastChecked set to now and RetryAfter cleared; on a
change a fresh record carrying the new status and accrual goes to
queueOut, and additionally, when the new status is neither PROCESSED
nor INVALID, the original record (cached status unchanged) is
re-pushed with LastChecked set to now and RetryAfter cleared. -/
def parsedEffect (now : Int) (r : OrderQueueEntry) (b : AccrualResponse) : StepEffect :=
  if statusMap b.orderStatus = r.orderStatus then
    { pending := [{ r with lastChecked := now, retryAfter := 0 }], completed := [] }
  else
    { pending :=
        if statusMap b.orderStatus ≠ "PROCESSED" ∧ statusMap b.orderStatus ≠ "INVALID" then
          [{ r with lastChecked := now, retryAfter := 0 }]
        else []
      completed :=
        [{ userID := r.userID
           orderNumber := r.orderNumber
           orderStatus := statusMap b.orderStatus
           retryCount := 0
           accrual := b.accrual
           lastChecked := 0
           retryAfter := 0 }] }

/-- One post-poll iteration of processAsync on the record popped from
queueIn, given the client outcome observed at wall-clock instant now:
the branch order mirrors the source (failure test on err or a code
outside 200 and 429, then the 429 branch which stores
time.Duration(seconds) in RetryAfter and stamps LastChecked without
touching RetryCount, then body parsing whose failure re-pushes with
RetryCount incremented and RetryAfter cleared, then the
status-comparison branch). -/
def processRecord (retryNumber now : Int) (r : OrderQueueEntry) (resp : ClientResult) : StepEffect :=
  match resp with
  | ClientResult.transport => failureEffect retryNumber now r
  | ClientResult.ok code hdr body =>
    if code ≠ 429 ∧ code ≠ 200 then failureEffect retryNumber now r
    else if code = 429 then
      { pending := [{ r with lastChecked := now, retryAfter := sec * goAtoi hdr }]
        completed := [] }
    else
      match body with
      | none =>
        { pending := [{ r with retryCount := r.retryCount + 1, lastChecked := now, retryAfter := 0 }]
          completed := [] }
      | some b => parsedEffect now r b

/-- The server-requested backoff test performed right after popping a
record: RetryAfter nonzero and elapsed time since LastChecked below
RetryAfter sends the record straight back to queueIn without a poll. -/
def retryAfterGuard (now : Int) (r : OrderQueueEntry) : Prop :=
  r.retryAfter ≠ 0 ∧ now - r.lastChecked < r.retryAfter

instance (now : Int) (r : OrderQueueEntry) : Decidable (retryAfterGuard now r) := by
  unfold retryAfterGuard
  exact inferInstance

/-- Exit condition of the minimum-spacing busy loop: at least ten
seconds elapsed since LastChecked. -/
def spacingDone (now : Int) (r : OrderQueueEntry) : Prop :=
  10 * sec ≤ now - r.lastChecked

instance (now : Int) (r : OrderQueueEntry) : Decidable (spacingDone now r) := by
  unfold spacingDone
  exact inferInstance

/-- Outcome of one pass through the spacing busy loop of processAsync. -/
inductive WaitOutcome where
  | cancelled : WaitOutcome
  | keepWaiting : WaitOutcome
  | proceed : WaitOutcome
  deriving DecidableEq

/-- One pass through the spacing busy loop: while fewer than ten
seconds have elapsed since LastChecked the worker consults the select
statement, returning at once when the cancellation context is done and
spinning otherwise; once the spacing holds it proceeds to the poll. -/
def spacingWaitStep (cancelSignal : Bool) (now : Int) (r : OrderQueueEntry) : WaitOutcome :=
  if now - r.lastChecked < 10 * sec then
    if cancelSignal then WaitOutcome.cancelled else WaitOutcome.keepWaiting
  else WaitOutcome.proceed

/-- A worker that popped record r at instant tPop reaches the
GetAccrual call at instant tPoll exactly when the backoff guard
evaluated at pop time did not bounce the record, time moved forward,
and the spacing loop exit condition holds at the poll instant. -/
def pollReached (r : OrderQueueEntry) (tPop tPoll : Int) : Prop :=
  ¬ retryAfterGuard tPop r ∧ tPop ≤ tPoll ∧ spacingDone tPoll r

instance (r : OrderQueueEntry) (tPop tPoll : Int) : Decidable (pollReached r tPop tPoll) := by
  unfold pollReached
  exact inferInstance

/-- Row of the orders table (id column omitted; created_at abstracted
to an integer instant). -/
structure OrderRow where
  userID : String
  orderNumber : Int
  status : String
  accrual : Int
  createdAt : Int
  deriving DecidableEq

/-- Row of the withdrawals table (id column omitted). -/
structure WithdrawalRow where
  userID : String
  orderNumber : Int
  amount : Int
  processedAt : Int
  deriving DecidableEq

/-- Row of the balance table (id column omitted; user_id unique). -/
structure BalanceRow where
  userID : String
  amount : Int
  deriving DecidableEq

/-- The persistent relational state owned by the ledger store: the
orders, balance and withdrawals tables of createTables (the users
table plays no part in the claims). -/
structure LedgerState where
  orders : List OrderRow
  balance : List BalanceRow
  withdrawals : List WithdrawalRow
  deriving DecidableEq

/-- Balance amount of a user, the scan of SELECT on the balance table
by user_id. -/
def balanceOf (st : LedgerState) (uid : String) : Option Int :=
  (st.balance.find? (fun b => b.userID == uid)).map (fun b => b.amount)

/-- The committed transaction of Storage.updateOrder: UPDATE orders
SET status, accrual WHERE order_number, then UPDATE balance SET
amount = amount + accrual WHERE user_id; no read of the existing row
precedes either statement. -/
def updateOrder (st : LedgerState) (orderNumber : Int) (status : String) (accrual : Int)
    (userID : String) : LedgerState :=
  { st with
    orders := st.orders.map (fun o =>
      if o.orderNumber = orderNumber then { o with status := status, accrual := accrual } else o)
    balance := st.balance.map (fun b =>
      if b.userID = userID then { b with amount := b.amount + accrual } else b) }

/-- Error taxonomy of internal/storage/v1/errors surfaced by the store
operations the claims mention. -/
inductive StorageErr where
  | alreadyExists (id : String) : StorageErr
  | alreadyExistsAndViolates (id : String) : StorageErr
  | notFound : StorageErr
  | contextTimeoutExceeded : StorageErr
  | executionPSQL : StorageErr
  deriving DecidableEq

/-- Request payload of a withdrawal, models modeldto.NewOrderWithdrawal. -/
structure NewOrderWithdrawal where
  orderNumber : Int
  amount : Int
  deriving DecidableEq

/-- The transaction of Storage.AddNewWithdrawal: INSERT INTO orders
(status PROCESSED, accrual 0), INSERT INTO withdrawals, UPDATE balance
SET amount = amount - sum, then commit; a unique violation on either
order_number column surfaces the first error sent on the error channel
and the deferred rollback discards the transaction. The statements
contain no comparison of the amount against the balance, and
createTables places no CHECK constraint on balance.amount. -/
def AddNewWithdrawal (st : LedgerState) (userID : String) (w : NewOrderWithdrawal)
    (now : Int) : Except StorageErr LedgerState :=
  if st.orders.any (fun o => o.orderNumber == w.orderNumber) then
    Except.error (StorageErr.alreadyExists (toString w.orderNumber))
  else if st.withdrawals.any (fun wd => wd.orderNumber == w.orderNumber) then
    Except.error (StorageErr.alreadyExists (toString w.orderNumber))
  else
    Except.ok
      { st with
        orders := st.orders ++ [{ userID := userID
                                  orderNumber := w.orderNumber
                                  status := "PROCESSED"
                                  accrual := 0
                                  createdAt := now }]
        withdrawals := st.withdrawals ++ [{ userID := userID
                                            orderNumber := w.orderNumber
                                            amount := w.amount
                                            processedAt := now }]
        balance := st.balance.map (fun b =>
          if b.userID = userID then { b with amount := b.amount - w.amount } else b) }

/-- Storage.AddNewOrder: INSERT INTO orders (status NEW, accrual 0);
on a unique violation the existing row is selected by order_number and
the error kind depends on whether its user_id matches the caller (the
first value sent on the unbuffered error channel is the one the method
returns). -/
def AddNewOrder (st : LedgerState) (userID : String) (orderNumber : Int)
    (now : Int) : Except StorageErr LedgerState :=
  match st.orders.find? (fun o => o.orderNumber == orderNumber) with
  | some row =>
    if row.userID = userID then
      Except.error (StorageErr.alreadyExists (toString orderNumber))
    else
      Except.error (StorageErr.alreadyExistsAndViolates (toString orderNumber))
  | none =>
    Except.ok
      { st with
        orders := st.orders ++ [{ userID := userID
                                  orderNumber := orderNumber
                                  status := "NEW"
                                  accrual := 0
                                  createdAt := now }] }

/-- HTTP status chosen by handlers.HandleNewOrder from the outcome of
the order upload: 202 on success, 504 on a context timeout, 200 when
the same user already uploaded the number, 409 when another user did,
500 otherwise (the Luhn failure is rejected earlier in the service
layer and never reaches this mapping as a StorageErr). -/
def handleNewOrderStatus (res : Except StorageErr LedgerState) : Int :=
  match res with
  | Except.ok _ => 202
  | Except.error e =>
    match e with
    | StorageErr.contextTimeoutExceeded => 504
    | StorageErr.alreadyExists _ => 200
    | StorageErr.alreadyExistsAndViolates _ => 409
    | _ => 500

/-- Storage.getStalledOrders: SELECT * FROM orders WHERE status NOT IN
(PROCESSED, INVALID). -/
def getStalledOrders (st : LedgerState) : List OrderRow :=
  st.orders.filter (fun o => decide (o.status ≠ "PROCESSED" ∧ o.status ≠ "INVALID"))

/-- The queue entry the recovery goroutine builds for a stalled order:
a struct literal naming only UserID, OrderNumber and OrderStatus, so
RetryCount, Accrual, LastChecked and RetryAfter hold their Go zero
values. -/
def recoveryEntry (o : OrderRow) : OrderQueueEntry :=
  { userID := o.userID
    orderNumber := o.orderNumber
    orderStatus := o.status
    retryCount := 0
    accrual := 0
    lastChecked := 0
    retryAfter := 0 }

/-- Queue traffic attributable to InitStorage: pushedBeforeReturn
lists the entries sent on QueueIn before InitStorage returns to its
caller, recoveryTask the entries the goroutine spawned at the
wg.Add(1) / go func() block sends; in the source every recovery push
happens inside that goroutine and none before the return. -/
structure InitStorageEffects where
  pushedBeforeReturn : List OrderQueueEntry
  recoveryTask : List OrderQueueEntry
  deriving DecidableEq

/-- The queue effects of InitStorage on a store holding the given
state: the function body returns immediately after spawning the
recovery goroutine, so nothing is pushed synchronously and the
goroutine pushes one entry per stalled order, in table order. -/
def initStorageQueueEffects (st : LedgerState) : InitStorageEffects :=
  { pushedBeforeReturn := []
    recoveryTask := (getStalledOrders st).map recoveryEntry }

/-- Ledger state for exercising updateOrder a second time: order 77
already sits in the terminal state PROCESSED with accrual 500.50
(50050 hundredths) and the owning balance has already been credited
once. -/
def stC1 : LedgerState :=
  { orders := [{ userID := "u1", orderNumber := 77, status := "PROCESSED",
                 accrual := 50050, createdAt := 0 }]
    balance := [{ userID := "u1", amount := 50050 }]
    withdrawals := [] }

/-- Ledger state for exercising AddNewWithdrawal beyond the available
funds: one user with balance 50.00 (5000 hundredths) and no orders or
withdrawals. -/
def stC2 : LedgerState :=
  { orders := []
    balance := [{ userID := "u2", amount := 5000 }]
    withdrawals := [] }

/-- Withdrawal request of 100.00 points against order 2377225624. -/
def wC2 : NewOrderWithdrawal := { orderNumber := 2377225624, amount := 10000 }

/-- Queue record whose RetryCount equals the configured retry limit 3. -/
def rC3 : OrderQueueEntry :=
  { userID := "u3", orderNumber := 33, orderStatus := "PROCESSING", retryCount := 3,
    accrual := 0, lastChecked := 0, retryAfter := 0 }

/-- Queue record at the retry limit used to instantiate the give-up
branch of the failure handler. -/
def rC3w : OrderQueueEntry :=
  { userID := "u3w", orderNumber := 34, orderStatus := "NEW", retryCount := 3,
    accrual := 0, lastChecked := 0, retryAfter := 0 }

/-- Queue record cached at status NEW, about to observe PROCESSING. -/
def rC4 : OrderQueueEntry :=
  { userID := "u4", orderNumber := 44, orderStatus := "NEW", retryCount := 0,
    accrual := 0, lastChecked := 0, retryAfter := 0 }

/-- Parsed accrual body reporting the intermediate status PROCESSING. -/
def bC4 : AccrualResponse :=
  { orderNumber := "44", orderStatus := "PROCESSING", accrual := 0 }

/-- Queue record used to instantiate the 429 handling. -/
def rC5 : OrderQueueEntry :=
  { userID := "u5", orderNumber := 55, orderStatus := "PROCESSING", retryCount := 1,
    accrual := 0, lastChecked := 3, retryAfter := 0 }

/-- Queue record carrying a nonzero server-requested backoff of five
seconds when a transport failure strikes. -/
def rC6 : OrderQueueEntry :=
  { userID := "u6", orderNumber := 66, orderStatus := "NEW", retryCount := 0,
    accrual := 0, lastChecked := 0, retryAfter := 5 * sec }

/-- Ledger state holding a single non-terminal (NEW) order, so
recovery has work to do. -/
def stC7 : LedgerState :=
  { orders := [{ userID := "u7", orderNumber := 11, status := "NEW",
                 accrual := 0, createdAt := 0 }]
    balance := []
    withdrawals := [] }

/-- Ledger state in which order 42 is already owned by user a. -/
def stC8 : LedgerState :=
  { orders := [{ userID := "a", orderNumber := 42, status := "NEW",
                 accrual := 0, createdAt := 0 }]
    balance := [{ userID := "a", amount := 0 }]
    withdrawals := [] }

/-- Queue record used to instantiate the inter-poll spacing bound. -/
def rC9 : OrderQueueEntry :=
  { userID := "u9", orderNumber := 99, orderStatus := "PROCESSING", retryCount := 0,
    accrual := 0, lastChecked := 0, retryAfter := 0 }

/-- Queue record with a stale backoff of seven seconds that receives a
429 without a readable Retry-After header. -/
def rC10 : OrderQueueEntry :=
  { userID := "u10", orderNumber := 110, orderStatus := "NEW", retryCount := 2,
    accrual := 0, lastChecked := 4, retryAfter := 7 * sec }

/-- Every record a worker iteration pushes back to the pending queue
carries LastChecked equal to the handling instant: each re-push branch
of processAsync stamps LastChecked with time.Now(). -/
theorem processRecord_pending_lastChecked (lim now : Int) (r : OrderQueueEntry)
    (resp : ClientResult) (e : OrderQueueEntry)
    (he : e ∈ (processRecord lim now r resp).pending) : e.lastChecked = now := by
  cases resp with
  | transport =>
    simp only [processRecord, failureEffect] at he
    split at he
    · simp at he
    · simp at he
      subst he
      rfl
  | ok code hdr body =>
    simp only [processRecord] at he
    split at he
    · simp only [failureEffect] at he
      split at he
      · simp at he
      · simp at he
        subst he
        rfl
    · split at he
      · simp at he
        subst he
        rfl
      · cases body with
        | none =>
          simp at he
          subst he
          rfl
        | some b =>
          simp only [parsedEffect] at he
          split at he
          · simp at he
            subst he
            rfl
          · simp only at he
            split at he
            · simp at he
              subst he
              rfl
            · simp at he

/-- C1: the second application of updateOrder with the identical
terminal (status, accrual) pair is not a no-op. On a state whose order
77 is already PROCESSED with accrual 500.50 and whose balance was
already credited, the repeated call leaves the order row bytes
unchanged yet credits the balance again, doubling it to 1001.00: the
claimed idempotency of apply_update does not hold in the code. -/
theorem c1_update_order_not_idempotent :
    stC1.orders = [{ userID := "u1", orderNumber := 77, status := "PROCESSED",
                     accrual := 50050, createdAt := 0 }]
    ∧ balanceOf stC1 "u1" = some 50050
    ∧ (updateOrder stC1 77 "PROCESSED" 50050 "u1").orders = stC1.orders
    ∧ balanceOf (updateOrder stC1 77 "PROCESSED" 50050 "u1") "u1" = some 100100
    ∧ updateOrder stC1 77 "PROCESSED" 50050 "u1" ≠ stC1 := by
  decide

/-- C2: AddNewWithdrawal does not refuse an overdraft. On a user with
balance 50.00, a withdrawal of 100.00 against a fresh order number
commits (the result is ok, not an error) and leaves the at-rest
balance at -50.00, violating the claimed non-negativity at rest: the
transaction holds no funds comparison and the schema no CHECK
constraint. -/
theorem c2_withdrawal_overdraft_commits :
    balanceOf stC2 "u2" = some 5000
    ∧ (AddNewWithdrawal stC2 "u2" wC2 5).isOk = true
    ∧ ((AddNewWithdrawal stC2 "u2" wC2 5).toOption.bind (fun st => balanceOf st "u2"))
        = some (-5000)
    ∧ ((-5000 : Int) < 0) := by
  decide

/-- C3 counterexample: with retry limit 3 and a record whose
RetryCount is exactly 3, a transport failure produces the give-up
completion (and no re-push) even though 3 is not greater than 3, so
the claimed give-up condition RetryCount greater than the limit is
wrong at the boundary; moreover an unparseable 200 body at RetryCount
10 produces no give-up at all although 10 is greater than 3. -/
theorem c3_retry_exhaustion_counterexample :
    ¬ (((processRecord 3 (20 * sec) rC3 ClientResult.transport).completed ≠ [])
        ↔ ((3 : Int) > 3))
    ∧ (processRecord 3 (20 * sec) rC3 ClientResult.transport).pending = []
    ∧ (processRecord 3 (20 * sec) { rC3 with retryCount := 10 }
        (ClientResult.ok 200 none none)).completed = []
    ∧ ¬ ((((processRecord 3 (20 * sec) { rC3 with retryCount := 10 }
        (ClientResult.ok 200 none none)).completed ≠ []) ↔ ((10 : Int) > 3))) := by
  decide

/-- C3 (amended): on a transport error or a status outside 200 and
429 the worker emits the give-up completion exactly when RetryCount
has reached the retry limit (RetryCount at least the limit), the
give-up record carrying the original status and accrual; below the
limit it re-pushes with RetryCount incremented and LastChecked set to
now; both failure kinds behave identically; an unparseable 200 body
never gives up and always re-pushes with RetryCount incremented and
RetryAfter cleared. -/
theorem c3_retry_exhaustion (lim now : Int) (r : OrderQueueEntry) :
    ((processRecord lim now r ClientResult.transport).completed ≠ [] ↔ lim ≤ r.retryCount)
    ∧ (∀ (code : Int) (hdr : Option Int) (body : Option AccrualResponse),
        code ≠ 429 → code ≠ 200 →
        processRecord lim now r (ClientResult.ok code hdr body)
          = processRecord lim now r ClientResult.transport)
    ∧ (lim ≤ r.retryCount →
        processRecord lim now r ClientResult.transport
          = { pending := [], completed := [giveUpRecord r] }
        ∧ (giveUpRecord r).orderStatus = r.orderStatus
        ∧ (giveUpRecord r).accrual = r.accrual
        ∧ (giveUpRecord r).userID = r.userID
        ∧ (giveUpRecord r).orderNumber = r.orderNumber)
    ∧ (r.retryCount < lim →
        processRecord lim now r ClientResult.transport
          = { pending := [{ r with retryCount := r.retryCount + 1, lastChecked := now }]
              completed := [] })
    ∧ (∀ hdr : Option Int,
        processRecord lim now r (ClientResult.ok 200 hdr none)
          = { pending := [{ r with
                            retryCount := r.retryCount + 1
                            lastChecked := now
                            retryAfter := 0 }]
              completed := [] }) := by
  refine ⟨?_, ?_, ?_, ?_, ?_⟩
  · simp only [processRecord, failureEffect]
    split <;> simp <;> omega
  · intro code hdr body h1 h2
    simp only [processRecord]
    rw [if_pos ⟨h1, h2⟩]
  · intro h
    have heq : processRecord lim now r ClientResult.transport
        = { pending := [], completed := [giveUpRecord r] } := by
      simp only [processRecord, failureEffect, if_pos h]
    exact ⟨heq, rfl, rfl, rfl, rfl⟩
  · intro h
    simp only [processRecord, failureEffect]
    rw [if_neg (by omega)]
  · intro hdr
    rfl

/-- C3 witness: at retry limit 3 and RetryCount 3 the theorem applies
and yields the give-up effect. -/
theorem c3_retry_exhaustion_witness :
    ((3 : Int) ≤ rC3w.retryCount)
    ∧ processRecord 3 7 rC3w ClientResult.transport
        = { pending := [], completed := [giveUpRecord rC3w] } := by
  exact ⟨by decide, ((c3_retry_exhaustion 3 7 rC3w).2.2.1 (by decide)).1⟩

/-- C4: when a 200 body parses to a status different from the cached
one, the worker emits to the completed queue exactly one record with
the item's user and order number, the new status and the new accrual;
and exactly when the new status is neither PROCESSED nor INVALID it
additionally re-pushes the item with LastChecked set to now,
RetryAfter cleared to zero and the status field still holding the
pre-update value; for a terminal new status nothing is re-pushed. -/
theorem c4_status_transition (lim now : Int) (r : OrderQueueEntry) (hdr : Option Int)
    (b : AccrualResponse) (hne : statusMap b.orderStatus ≠ r.orderStatus) :
    (processRecord lim now r (ClientResult.ok 200 hdr (some b))).completed
      = [{ userID := r.userID, orderNumber := r.orderNumber,
           orderStatus := statusMap b.orderStatus, retryCount := 0,
           accrual := b.accrual, lastChecked := 0, retryAfter := 0 }]
    ∧ (statusMap b.orderStatus ≠ "PROCESSED" ∧ statusMap b.orderStatus ≠ "INVALID" →
        (processRecord lim now r (ClientResult.ok 200 hdr (some b))).pending
          = [{ r with lastChecked := now, retryAfter := 0 }]
        ∧ ({ r with lastChecked := now, retryAfter := 0 } : OrderQueueEntry).orderStatus
            = r.orderStatus
        ∧ ({ r with lastChecked := now, retryAfter := 0 } : OrderQueueEntry).lastChecked = now
        ∧ ({ r with lastChecked := now, retryAfter := 0 } : OrderQueueEntry).retryAfter = 0)
    ∧ ((statusMap b.orderStatus = "PROCESSED" ∨ statusMap b.orderStatus = "INVALID") →
        (processRecord lim now r (ClientResult.ok 200 hdr (some b))).pending = []) := by
  have hred : processRecord lim now r (ClientResult.ok 200 hdr (some b))
      = parsedEffect now r b := rfl
  rw [hred]
  unfold parsedEffect
  rw [if_neg hne]
  refine ⟨rfl, ?_, ?_⟩
  · intro h
    have hp : (if statusMap b.orderStatus ≠ "PROCESSED" ∧ statusMap b.orderStatus ≠ "INVALID"
          then [{ r with lastChecked := now, retryAfter := 0 }]
          else ([] : List OrderQueueEntry))
        = [{ r with lastChecked := now, retryAfter := 0 }] := if_pos h
    exact ⟨hp, rfl, rfl, rfl⟩
  · intro h
    exact if_neg (by tauto)

/-- C4 witness: a record cached at NEW observing PROCESSING is
re-pushed with the pre-update status. -/
theorem c4_status_transition_witness :
    (statusMap bC4.orderStatus ≠ rC4.orderStatus)
    ∧ (statusMap bC4.orderStatus ≠ "PROCESSED" ∧ statusMap bC4.orderStatus ≠ "INVALID")
    ∧ (processRecord 3 (20 * sec) rC4 (ClientResult.ok 200 none (some bC4))).pending
        = [{ rC4 with lastChecked := 20 * sec, retryAfter := 0 }] := by
  exact ⟨by decide, by decide,
    ((c4_status_transition 3 (20 * sec) rC4 none bC4 (by decide)).2.1 (by decide)).1⟩

/-- C5: a 429 carrying a parsed Retry-After of k seconds makes the
worker re-push the item with RetryAfter set to k seconds, LastChecked
stamped with the current instant and RetryCount untouched, emitting
nothing to the completed queue; and any worker that later reaches the
poll for that item does so no earlier than k seconds after the 429 was
handled. -/
theorem c5_rate_limit (lim now : Int) (r : OrderQueueEntry) (k : Int)
    (body : Option AccrualResponse) :
    processRecord lim now r (ClientResult.ok 429 (some k) body)
      = { pending := [{ r with lastChecked := now, retryAfter := sec * k }], completed := [] }
    ∧ ({ r with lastChecked := now, retryAfter := sec * k } : OrderQueueEntry).retryCount
        = r.retryCount
    ∧ (∀ tPop tPoll : Int,
        pollReached { r with lastChecked := now, retryAfter := sec * k } tPop tPoll →
        now + sec * k ≤ tPoll) := by
  refine ⟨rfl, rfl, ?_⟩
  intro tPop tPoll h
  obtain ⟨hg, hmono, hs⟩ := h
  simp only [retryAfterGuard, not_and, not_lt] at hg
  simp only [spacingDone] at hs
  simp only [sec] at hg hs ⊢
  rcases Decidable.em ((1000000000 : Int) * k = 0) with h0 | h0
  · omega
  · have h2 := hg h0
    omega

/-- C5 witness: after a 429 with Retry-After 2 handled at instant 0,
a poll reached at twelve seconds satisfies the two-second bound. -/
theorem c5_rate_limit_witness :
    pollReached { rC5 with lastChecked := 0, retryAfter := sec * 2 } (2 * sec) (12 * sec)
    ∧ (0 : Int) + sec * 2 ≤ 12 * sec := by
  exact ⟨by decide, (c5_rate_limit 3 0 rC5 2 none).2.2 (2 * sec) (12 * sec) (by decide)⟩

/-- C6 counterexample: a record holding a five-second RetryAfter that
suffers a transport failure below the retry limit is re-pushed with
its RetryAfter still at five seconds, not cleared to zero as the claim
states. -/
theorem c6_failure_frame_counterexample :
    (processRecord 3 (100 * sec) rC6 ClientResult.transport).pending
      = [{ rC6 with retryCount := 1, lastChecked := 100 * sec }]
    ∧ ({ rC6 with retryCount := 1, lastChecked := 100 * sec } : OrderQueueEntry).retryAfter
        = 5 * sec
    ∧ (5 * sec : Int) ≠ 0 := by
  decide

/-- C6 (amended): while retry budget remains, the item re-pushed
after a transport error or a status outside 200 and 429 equals the
popped item with exactly two field changes, RetryCount incremented and
LastChecked set to now, RetryAfter being retained unchanged along with
the user, order number, status and accrual fields; only the
unparseable-200 re-push additionally clears RetryAfter to zero, its
other fields framed the same way. -/
theorem c6_failure_frame (lim now : Int) (r : OrderQueueEntry) (hlt : r.retryCount < lim) :
    ((processRecord lim now r ClientResult.transport).pending
        = [{ r with retryCount := r.retryCount + 1, lastChecked := now }]
      ∧ (∀ (code : Int) (hdr : Option Int) (body : Option AccrualResponse),
          code ≠ 429 → code ≠ 200 →
          (processRecord lim now r (ClientResult.ok code hdr body)).pending
            = [{ r with retryCount := r.retryCount + 1, lastChecked := now }])
      ∧ ({ r with retryCount := r.retryCount + 1, lastChecked := now }
          : OrderQueueEntry).userID = r.userID
      ∧ ({ r with retryCount := r.retryCount + 1, lastChecked := now }
          : OrderQueueEntry).orderNumber = r.orderNumber
      ∧ ({ r with retryCount := r.retryCount + 1, lastChecked := now }
          : OrderQueueEntry).orderStatus = r.orderStatus
      ∧ ({ r with retryCount := r.retryCount + 1, lastChecked := now }
          : OrderQueueEntry).accrual = r.accrual
      ∧ ({ r with retryCount := r.retryCount + 1, lastChecked := now }
          : OrderQueueEntry).retryAfter = r.retryAfter)
    ∧ (∀ hdr : Option Int,
        (processRecord lim now r (ClientResult.ok 200 hdr none)).pending
          = [{ r with retryCount := r.retryCount + 1, lastChecked := now, retryAfter := 0 }]
        ∧ ({ r with retryCount := r.retryCount + 1, lastChecked := now, retryAfter := 0 }
            : OrderQueueEntry).userID = r.userID
        ∧ ({ r with retryCount := r.retryCount + 1, lastChecked := now, retryAfter := 0 }
            : OrderQueueEntry).orderNumber = r.orderNumber
        ∧ ({ r with retryCount := r.retryCount + 1, lastChecked := now, retryAfter := 0 }
            : OrderQueueEntry).orderStatus = r.orderStatus
        ∧ ({ r with retryCount := r.retryCount + 1, lastChecked := now, retryAfter := 0 }
            : OrderQueueEntry).accrual = r.accrual
        ∧ ({ r with retryCount := r.retryCount + 1, lastChecked := now, retryAfter := 0 }
            : OrderQueueEntry).retryAfter = 0) := by
  have hTransport : (processRecord lim now r ClientResult.transport).pending
      = [{ r with retryCount := r.retryCount + 1, lastChecked := now }] := by
    simp only [processRecord, failureEffect]
    rw [if_neg (by omega)]
  refine ⟨⟨hTransport, ?_, rfl, rfl, rfl, rfl, rfl⟩, ?_⟩
  · intro code hdr body h1 h2
    have hred : processRecord lim now r (ClientResult.ok code hdr body)
        = failureEffect lim now r := by
      simp only [processRecord]
      rw [if_pos ⟨h1, h2⟩]
    rw [hred]
    simp only [failureEffect]
    rw [if_neg (by omega)]
  · intro hdr
    exact ⟨rfl, rfl, rfl, rfl, rfl, rfl⟩

/-- C6 witness: below the retry limit the transport-failure re-push
matches the two-field update. -/
theorem c6_failure_frame_witness :
    (rC6.retryCount < 3)
    ∧ (processRecord 3 (100 * sec) rC6 ClientResult.transport).pending
        = [{ rC6 with retryCount := rC6.retryCount + 1, lastChecked := 100 * sec }] := by
  exact ⟨by decide, (c6_failure_frame 3 (100 * sec) rC6 (by decide)).1.1⟩

/-- C7 counterexample: on a store holding one NEW order, InitStorage
pushes nothing before returning; the only recovery push lives in the
spawned goroutine, so recovery is not synchronous with initialization
and is not completed before the server can start accepting traffic. -/
theorem c7_recovery_not_synchronous :
    (initStorageQueueEffects stC7).recoveryTask
      = [{ userID := "u7", orderNumber := 11, orderStatus := "NEW",
           retryCount := 0, accrual := 0, lastChecked := 0, retryAfter := 0 }]
    ∧ (initStorageQueueEffects stC7).pushedBeforeReturn = []
    ∧ (initStorageQueueEffects stC7).pushedBeforeReturn
        ≠ (initStorageQueueEffects stC7).recoveryTask := by
  decide

/-- C7 (amended): the recovery work spawned once by InitStorage (in a
background goroutine rather than synchronously before traffic) pushes
exactly one entry per order whose status is neither PROCESSED nor
INVALID, carrying that order's user, number and status together with
RetryCount zero, LastChecked at the zero instant and RetryAfter zero;
consequently the ten-second spacing condition holds for such an entry
at any instant at least ten seconds after the zero instant, so the
first poll is not delayed. -/
theorem c7_recovery_task (st : LedgerState) (e : OrderQueueEntry) :
    (e ∈ (initStorageQueueEffects st).recoveryTask ↔
      ∃ o, o ∈ st.orders ∧ o.status ≠ "PROCESSED" ∧ o.status ≠ "INVALID"
        ∧ e = { userID := o.userID, orderNumber := o.orderNumber, orderStatus := o.status,
                retryCount := 0, accrual := 0, lastChecked := 0, retryAfter := 0 })
    ∧ (∀ now : Int, 10 * sec ≤ now → e ∈ (initStorageQueueEffects st).recoveryTask →
        spacingDone now e) := by
  constructor
  · simp only [initStorageQueueEffects, getStalledOrders, List.mem_map, List.mem_filter,
      decide_eq_true_eq, recoveryEntry]
    constructor
    · rintro ⟨o, ⟨ho, hp⟩, rfl⟩
      exact ⟨o, ho, hp.1, hp.2, rfl⟩
    · rintro ⟨o, ho, h1, h2, rfl⟩
      exact ⟨o, ⟨ho, h1, h2⟩, rfl⟩
  · intro now hnow he
    simp only [initStorageQueueEffects, List.mem_map] at he
    obtain ⟨o, _, rfl⟩ := he
    simp only [spacingDone, recoveryEntry]
    omega

/-- C7 witness: the recovered NEW order's entry satisfies the spacing
condition twenty seconds in. -/
theorem c7_recovery_task_witness :
    ((10 : Int) * sec ≤ 20 * sec)
    ∧ spacingDone (20 * sec)
        { userID := "u7", orderNumber := 11, orderStatus := "NEW",
          retryCount := 0, accrual := 0, lastChecked := 0, retryAfter := 0 } := by
  exact ⟨by decide,
    (c7_recovery_task stC7
        { userID := "u7", orderNumber := 11, orderStatus := "NEW",
          retryCount := 0, accrual := 0, lastChecked := 0, retryAfter := 0 }).2
      (20 * sec) (by decide) (by decide)⟩

/-- C8: when the uploaded order number already has a row, AddNewOrder
returns the plain already-exists error (mapped to HTTP 200) exactly
when the existing row belongs to the caller and the
exists-for-another-user error (mapped to HTTP 409) otherwise, and in
either case it never returns a successor state, so no row is
inserted. -/
theorem c8_add_order_conflict (st : LedgerState) (uid : String) (n now : Int)
    (row : OrderRow)
    (hfind : st.orders.find? (fun o => o.orderNumber == n) = some row) :
    (row.userID = uid →
        AddNewOrder st uid n now = Except.error (StorageErr.alreadyExists (toString n))
        ∧ handleNewOrderStatus (AddNewOrder st uid n now) = 200)
    ∧ (row.userID ≠ uid →
        AddNewOrder st uid n now
          = Except.error (StorageErr.alreadyExistsAndViolates (toString n))
        ∧ handleNewOrderStatus (AddNewOrder st uid n now) = 409)
    ∧ (∀ st2 : LedgerState, AddNewOrder st uid n now ≠ Except.ok st2) := by
  have hred : AddNewOrder st uid n now
      = if row.userID = uid then
          Except.error (StorageErr.alreadyExists (toString n))
        else
          Except.error (StorageErr.alreadyExistsAndViolates (toString n)) := by
    unfold AddNewOrder
    rw [hfind]
  refine ⟨?_, ?_, ?_⟩
  · intro h
    rw [hred, if_pos h]
    exact ⟨rfl, rfl⟩
  · intro h
    rw [hred, if_neg h]
    exact ⟨rfl, rfl⟩
  · intro st2
    rw [hred]
    split <;> simp

/-- C8 witness: order 42 owned by user a yields the 200-mapped error
for a and the 409-mapped error for b. -/
theorem c8_add_order_conflict_witness :
    (stC8.orders.find? (fun o => o.orderNumber == (42 : Int))
      = some { userID := "a", orderNumber := 42, status := "NEW",
               accrual := 0, createdAt := 0 })
    ∧ (AddNewOrder stC8 "a" 42 7 = Except.error (StorageErr.alreadyExists (toString (42 : Int)))
        ∧ handleNewOrderStatus (AddNewOrder stC8 "a" 42 7) = 200)
    ∧ (AddNewOrder stC8 "b" 42 7
          = Except.error (StorageErr.alreadyExistsAndViolates (toString (42 : Int)))
        ∧ handleNewOrderStatus (AddNewOrder stC8 "b" 42 7) = 409) := by
  refine ⟨by decide, ?_, ?_⟩
  · exact (c8_add_order_conflict stC8 "a" 42 7
      { userID := "a", orderNumber := 42, status := "NEW", accrual := 0, createdAt := 0 }
      (by decide)).1 (by decide)
  · exact (c8_add_order_conflict stC8 "b" 42 7
      { userID := "a", orderNumber := 42, status := "NEW", accrual := 0, createdAt := 0 }
      (by decide)).2.1 (by decide)

/-- C9: the spacing busy loop proceeds to the poll exactly when at
least ten seconds have elapsed since LastChecked, and while they have
not it returns at once whenever the cancellation signal is observed;
since every re-pushed item carries LastChecked at the handling instant
(itself no earlier than the poll), two successive polls of the same
item are always at least ten seconds apart. -/
theorem c9_min_spacing :
    (∀ (c : Bool) (now : Int) (r : OrderQueueEntry),
        spacingWaitStep c now r = WaitOutcome.proceed ↔ spacingDone now r)
    ∧ (∀ (now : Int) (r : OrderQueueEntry),
        ¬ spacingDone now r → spacingWaitStep true now r = WaitOutcome.cancelled)
    ∧ (∀ (lim now tPoll : Int) (r : OrderQueueEntry) (resp : ClientResult)
        (e : OrderQueueEntry) (tPop2 tPoll2 : Int),
        tPoll ≤ now → e ∈ (processRecord lim now r resp).pending →
        pollReached e tPop2 tPoll2 → tPoll + 10 * sec ≤ tPoll2) := by
  refine ⟨?_, ?_, ?_⟩
  · intro c now r
    simp only [spacingWaitStep, spacingDone]
    split
    · cases c <;> simp <;> omega
    · simp
      omega
  · intro now r h
    simp only [spacingDone, not_le] at h
    simp only [spacingWaitStep, if_pos h]
    simp
  · intro lim now tPoll r resp e tPop2 tPoll2 hle he hp
    have hlc : e.lastChecked = now := processRecord_pending_lastChecked lim now r resp e he
    obtain ⟨hg, hmono, hs⟩ := hp
    simp only [spacingDone, hlc] at hs
    omega

/-- C9 witness: a poll handled at twenty seconds leads to a next poll
no earlier than thirty seconds. -/
theorem c9_min_spacing_witness :
    ((20 : Int) * sec ≤ 20 * sec)
    ∧ ({ rC9 with lastChecked := 20 * sec, retryAfter := 0 } : OrderQueueEntry)
        ∈ (processRecord 3 (20 * sec) rC9
            (ClientResult.ok 200 none
              (some { orderNumber := "99", orderStatus := "PROCESSING", accrual := 0 }))).pending
    ∧ pollReached { rC9 with lastChecked := 20 * sec, retryAfter := 0 } (31 * sec) (31 * sec)
    ∧ (20 * sec + 10 * sec ≤ (31 : Int) * sec) := by
  refine ⟨by decide, by decide, by decide, ?_⟩
  exact c9_min_spacing.2.2 3 (20 * sec) (20 * sec) rC9
    (ClientResult.ok 200 none
      (some { orderNumber := "99", orderStatus := "PROCESSING", accrual := 0 }))
    { rC9 with lastChecked := 20 * sec, retryAfter := 0 } (31 * sec) (31 * sec)
    (by decide) (by decide) (by decide)

/-- C10: a 429 whose Retry-After header is absent or unparseable is
treated as zero seconds (the discarded-error Atoi yields 0): the item
is re-pushed with RetryAfter zero and LastChecked at the handling
instant, the backoff guard can then never bounce it, and reaching the
next poll is constrained by nothing but forward time and the
ten-second minimum spacing. -/
theorem c10_missing_retry_after (lim now : Int) (r : OrderQueueEntry)
    (body : Option AccrualResponse) :
    goAtoi none = 0
    ∧ processRecord lim now r (ClientResult.ok 429 none body)
        = { pending := [{ r with lastChecked := now, retryAfter := 0 }], completed := [] }
    ∧ (∀ tPop : Int, ¬ retryAfterGuard tPop { r with lastChecked := now, retryAfter := 0 })
    ∧ (∀ tPop tPoll : Int,
        pollReached { r with lastChecked := now, retryAfter := 0 } tPop tPoll
          ↔ (tPop ≤ tPoll ∧ 10 * sec ≤ tPoll - now)) := by
  refine ⟨rfl, rfl, ?_, ?_⟩
  · intro tPop
    simp [retryAfterGuard]
  · intro tPop tPoll
    simp only [pollReached, retryAfterGuard, spacingDone]
    simp

/-- C10 witness: a headerless 429 at fifty seconds clears the stale
seven-second backoff and the guard rejects nothing afterwards. -/
theorem c10_missing_retry_after_witness :
    processRecord 5 (50 * sec) rC10 (ClientResult.ok 429 none none)
      = { pending := [{ rC10 with lastChecked := 50 * sec, retryAfter := 0 }]
          completed := [] }
    ∧ ¬ retryAfterGuard (50 * sec + 1) { rC10 with lastChecked := 50 * sec, retryAfter := 0 } := by
  exact ⟨(c10_missing_retry_after 5 (50 * sec) rC10 none).2.1,
    (c10_missing_retry_after 5 (50 * sec) rC10 none).2.2.1 (50 * sec + 1)⟩
